import Mathlib

/-!
Verification of the window-geometry persistence layer
(`src-tauri/src/main.rs`): a shallow embedding of `SimpleWindowState`,
its `save`/`load` operations, the startup `setup` closure and the
`on_window_event` close handler, with the external collaborators
(Tauri path/window APIs, `serde_json`, `std::fs`) modelled as explicit
fault-injectable environments.

Modelling conventions:
- Rust `u32` fields become `Nat` with an explicit `< 2^32` bound where
  it matters; `i32` fields become `Int` with explicit `i32` range bounds.
- `serde_json` is modelled at the JSON-value level: a file on disk holds
  either a structured JSON value or malformed text; numbers are modelled
  as integers (the only shape this program reads or writes).
- The filesystem is a map from paths to file contents; `fs::write` is a
  whole-file replacement, matching the discipline the program relies on.
- Each fallible external call is an oracle input (`Except`/`Option`
  fault fields), so every error-injection point of the claims is a
  plain parameter.
-/

/-- Path in the filesystem, as a list of segments. -/
abbrev FsPath := List String

/-- The geometry record persisted by the program (struct `SimpleWindowState`
in `main.rs`): `width: u32`, `height: u32`, `x: i32`, `y: i32`. -/
structure SimpleWindowState where
  width : Int
  height : Int
  x : Int
  y : Int
deriving DecidableEq, Repr

/-- The `Default` impl of `SimpleWindowState`: 800 x 1200, position unset. -/
def SimpleWindowState.default : SimpleWindowState :=
  { width := 800, height := 1200, x := -1, y := -1 }

/-- The Rust `u32` range (the `width`/`height` fields are `u32` in the
source; they are embedded as `Int` with this explicit bound). -/
abbrev isU32 (n : Int) : Prop := 0 ≤ n ∧ n < 4294967296

/-- The Rust `i32` range. -/
abbrev isI32 (z : Int) : Prop := -2147483648 ≤ z ∧ z < 2147483648

/-- JSON values, as produced and consumed by `serde_json`; numbers are
restricted to integers, the only numeric shape this program touches. -/
inductive Json where
  | num (n : Int)
  | str (s : String)
  | bool (b : Bool)
  | null
  | arr (xs : List Json)
  | obj (fields : List (String × Json))

/-- Content of a file on disk: either text that parses as JSON, or
malformed (non-JSON) text. -/
inductive FileContent where
  | json (j : Json)
  | malformed (s : String)

/-- Lookup of a field in a JSON object, first occurrence wins
(no claim exercises duplicate keys). -/
def lookupField (fields : List (String × Json)) (k : String) : Option Json :=
  (fields.find? (fun p => p.1 == k)).map (fun p => p.2)

/-- Deserialization of a `u32` field, as serde does it: an integer in
`[0, 2^32)`; anything else is a type error. -/
def decodeU32 : Json → Option Int
  | .num n => if 0 ≤ n ∧ n < 4294967296 then some n else none
  | _ => none

/-- Deserialization of an `i32` field: an integer in `[-2^31, 2^31)`. -/
def decodeI32 : Json → Option Int
  | .num n => if -2147483648 ≤ n ∧ n < 2147483648 then some n else none
  | _ => none

/-- Model of `serde_json::from_str::<SimpleWindowState>`: the text must be
valid JSON, an object, and carry all four fields with the right integer
types; any failure is `none`. -/
def fromStr : FileContent → Option SimpleWindowState
  | .malformed _ => none
  | .json (.obj fields) =>
    match (lookupField fields "width").bind decodeU32,
          (lookupField fields "height").bind decodeU32,
          (lookupField fields "x").bind decodeI32,
          (lookupField fields "y").bind decodeI32 with
    | some w, some h, some x, some y =>
        some { width := w, height := h, x := x, y := y }
    | _, _, _, _ => none
  | .json _ => none

/-- Serialization of the record to JSON (the value underlying
`serde_json::to_string_pretty`), fields in declaration order. -/
def SimpleWindowState.toJson (st : SimpleWindowState) : Json :=
  .obj [("width", .num st.width), ("height", .num st.height),
        ("x", .num st.x), ("y", .num st.y)]

/-- Model of `serde_json::to_string_pretty(self)`: the pretty-printed text
of the record, represented at the JSON-value level. -/
def toStringPretty (st : SimpleWindowState) : FileContent :=
  .json st.toJson

/-- The filesystem: a map from paths to file contents. -/
structure FS where
  getFile : FsPath → Option FileContent

/-- Model of `fs::write`: whole-file replacement of the content at a path. -/
def FS.setFile (fs : FS) (p : FsPath) (c : FileContent) : FS :=
  ⟨fun q => if q = p then some c else fs.getFile q⟩

/-- Model of `fs::read_to_string` over the filesystem map: a missing file
is an I/O error. -/
def FS.readFile (fs : FS) (p : FsPath) : Except String FileContent :=
  match fs.getFile p with
  | some c => .ok c
  | none => .error "No such file or directory"

/-- The file path `config_dir.join("window_state.json")`. -/
def configPath (dir : FsPath) : FsPath := dir ++ ["window_state.json"]

/-- Environment of `load`: the result of `app_handle.path().app_config_dir()`
and the outcome of `fs::read_to_string` at each path. -/
structure LoadEnv where
  configDir : Except String FsPath
  readFile : FsPath → Except String FileContent

/-- Embedding of `SimpleWindowState::load`: resolve the config directory,
read `window_state.json`, parse it; every failure returns the default. -/
def SimpleWindowState.load (env : LoadEnv) : SimpleWindowState :=
  match env.configDir with
  | .error _ => SimpleWindowState.default
  | .ok dir =>
    match env.readFile (configPath dir) with
    | .error _ => SimpleWindowState.default
    | .ok content =>
      match fromStr content with
      | some st => st
      | none => SimpleWindowState.default

/-- Load environment backed by a filesystem and a resolved directory. -/
def loadEnvOf (d : Except String FsPath) (fs : FS) : LoadEnv :=
  ⟨d, fs.readFile⟩

/-- Environment of `save`: the config-dir resolution result and injectable
faults for `fs::create_dir_all`, `serde_json::to_string_pretty` and
`fs::write` (each `some e` makes that call fail with cause `e`). -/
structure SaveEnv where
  configDir : Except String FsPath
  createDirFault : Option String
  serializeFault : Option String
  writeFault : Option String

/-- Embedding of `SimpleWindowState::save`: four stages in order, each
failure mapped to a distinct message prefix (the `map_err` format strings
of the source), returning the error and the resulting filesystem. -/
def SimpleWindowState.save (st : SimpleWindowState) (env : SaveEnv) (fs : FS) :
    Except String Unit × FS :=
  match env.configDir with
  | .error e => (.error ("获取配置目录失败: " ++ e), fs)
  | .ok dir =>
    match env.createDirFault with
    | some e => (.error ("创建配置目录失败: " ++ e), fs)
    | none =>
      match env.serializeFault with
      | some e => (.error ("序列化配置失败: " ++ e), fs)
      | none =>
        match env.writeFault with
        | some e => (.error ("写入配置文件失败: " ++ e), fs)
        | none => (.ok (), fs.setFile (configPath dir) (toStringPretty st))

/-- The four failure stages of `save`, as the spec names them. -/
inductive SaveErrorKind where
  | ConfigDirUnavailable
  | DirectoryCreateFailed
  | SerializationFailed
  | FileWriteFailed
deriving DecidableEq, Repr

/-- The message tag `save` uses for each error kind (the format-string
text before the cause). -/
def SaveErrorKind.tag : SaveErrorKind → String
  | .ConfigDirUnavailable => "获取配置目录失败: "
  | .DirectoryCreateFailed => "创建配置目录失败: "
  | .SerializationFailed => "序列化配置失败: "
  | .FileWriteFailed => "写入配置文件失败: "

/-- A `save` error message carries kind `k` when it is `k`'s tag followed
by a cause. -/
def hasKind (k : SaveErrorKind) (msg : String) : Prop :=
  ∃ cause, msg = k.tag ++ cause

/-- First character of each kind's tag; the tags differ already here,
which makes kinds recoverable from the message alone. -/
def SaveErrorKind.headChar : SaveErrorKind → Char
  | .ConfigDirUnavailable => '获'
  | .DirectoryCreateFailed => '创'
  | .SerializationFailed => '序'
  | .FileWriteFailed => '写'

/-- Window events, as far as the handler distinguishes them. -/
inductive WindowEvent where
  | closeRequested
  | other

/-- Environment of the close handler: the results of `window.inner_size()`
and `window.inner_position()`, and the environment of the nested `save`. -/
structure CloseEnv where
  innerSize : Except String (Int × Int)
  innerPosition : Except String (Int × Int)
  saveEnv : SaveEnv

/-- Outcome of the close handler: normal completion (recording the result
of `save` when it was called), or a Rust panic. -/
inductive HandlerOutcome where
  | completed (saveResult : Option (Except String Unit))
  | panicked (msg : String)
deriving Repr

/-- Embedding of the `on_window_event` callback. On `CloseRequested`:
`if let Ok(size) = window.inner_size()` guards the whole block, then
`window.inner_position().unwrap()` panics on error, then the captured
record is saved. -/
def on_window_event (ev : WindowEvent) (env : CloseEnv) (fs : FS) :
    HandlerOutcome × FS :=
  match ev with
  | .other => (.completed none, fs)
  | .closeRequested =>
    match env.innerSize with
    | .error _ => (.completed none, fs)
    | .ok (w, h) =>
      match env.innerPosition with
      | .error e => (.panicked e, fs)
      | .ok (px, py) =>
        let st : SimpleWindowState := { width := w, height := h, x := px, y := py }
        let r := st.save env.saveEnv fs
        (.completed (some r.1), r.2)

/-- The window-mutating calls the startup code can make, in order. -/
inductive WinCall where
  | setSize (w h : Int)
  | setPosition (x y : Int)
  | center
deriving DecidableEq, Repr

/-- Environment of the startup code: results of the window calls
(`set_size` and `center` results are only printed, `set_position`'s
result selects the fallback branch). -/
structure SetupEnv where
  setSizeResult : Except String Unit
  setPositionResult : Except String Unit
  centerResult : Except String Unit

/-- The window calls the `setup` closure makes after loading `st`:
always `set_size(width, height)`; then if `x >= 0 && y >= 0`, a
`set_position(x, y)` attempt with `center()` as fallback on its failure;
otherwise `center()` directly. -/
def setupCalls (st : SimpleWindowState) (env : SetupEnv) : List WinCall :=
  WinCall.setSize st.width st.height ::
    (if 0 ≤ st.x ∧ 0 ≤ st.y then
      match env.setPositionResult with
      | .ok _ => [WinCall.setPosition st.x st.y]
      | .error _ => [WinCall.setPosition st.x st.y, WinCall.center]
    else
      [WinCall.center])

/-- Embedding of the `setup` closure: load the saved state, then apply it. -/
def setup (le : LoadEnv) (env : SetupEnv) : List WinCall :=
  setupCalls (SimpleWindowState.load le) env

/-- The argument pairs of the `setPosition` calls in a trace. -/
def positionsOf : List WinCall → List (Int × Int)
  | [] => []
  | .setPosition x y :: rest => (x, y) :: positionsOf rest
  | _ :: rest => positionsOf rest

/-- The empty filesystem. -/
def fsEmpty : FS := ⟨fun _ => none⟩

/-- Deserializing a serialized `u32` value gives it back. -/
theorem decodeU32_num (n : Int) (h0 : 0 ≤ n) (h : n < 4294967296) :
    decodeU32 (.num n) = some n := by
  simp [decodeU32, h0, h]

/-- Deserializing a serialized `i32` value gives it back. -/
theorem decodeI32_num (z : Int) (h1 : -2147483648 ≤ z) (h2 : z < 2147483648) :
    decodeI32 (.num z) = some z := by
  simp [decodeI32, h1, h2]

/-- Parsing a well-formed four-field object recovers the field values. -/
theorem fromStr_fields (w h x y : Int)
    (hw0 : 0 ≤ w) (hw : w < 4294967296) (hh0 : 0 ≤ h) (hh : h < 4294967296)
    (hx1 : -2147483648 ≤ x) (hx2 : x < 2147483648)
    (hy1 : -2147483648 ≤ y) (hy2 : y < 2147483648) :
    fromStr (.json (.obj [("width", .num w), ("height", .num h),
        ("x", .num x), ("y", .num y)]))
      = some { width := w, height := h, x := x, y := y } := by
  have l1 : lookupField [("width", Json.num w), ("height", Json.num h),
      ("x", Json.num x), ("y", Json.num y)] "width" = some (Json.num w) := rfl
  have l2 : lookupField [("width", Json.num w), ("height", Json.num h),
      ("x", Json.num x), ("y", Json.num y)] "height" = some (Json.num h) := rfl
  have l3 : lookupField [("width", Json.num w), ("height", Json.num h),
      ("x", Json.num x), ("y", Json.num y)] "x" = some (Json.num x) := rfl
  have l4 : lookupField [("width", Json.num w), ("height", Json.num h),
      ("x", Json.num x), ("y", Json.num y)] "y" = some (Json.num y) := rfl
  simp only [fromStr, l1, l2, l3, l4, Option.some_bind',
             decodeU32_num w hw0 hw, decodeU32_num h hh0 hh,
             decodeI32_num x hx1 hx2, decodeI32_num y hy1 hy2]

/-- Round trip of the serde model: parsing the pretty-printed form of a
record recovers the record, for any record within the `u32`/`i32` ranges
of the Rust struct fields. -/
theorem fromStr_toStringPretty (st : SimpleWindowState)
    (hw : isU32 st.width) (hh : isU32 st.height)
    (hx : isI32 st.x) (hy : isI32 st.y) :
    fromStr (toStringPretty st) = some st := by
  obtain ⟨w, h, x, y⟩ := st
  exact fromStr_fields w h x y hw.1 hw.2 hh.1 hh.2 hx.1 hx.2 hy.1 hy.2

/-- A message carrying kind `k` starts with `k`'s head character. -/
theorem hasKind_headChar (k : SaveErrorKind) (msg : String)
    (h : hasKind k msg) : msg.data.head? = some k.headChar := by
  obtain ⟨cause, rfl⟩ := h
  cases k <;> (rw [String.data_append]; rfl)

/-- The four error kinds are distinguishable from the message alone: no
message carries two kinds. -/
theorem hasKind_unique (k k2 : SaveErrorKind) (msg : String)
    (h1 : hasKind k msg) (h2 : hasKind k2 msg) : k = k2 := by
  have e1 := hasKind_headChar k msg h1
  have e2 := hasKind_headChar k2 msg h2
  rw [e1] at e2
  have hch : k.headChar = k2.headChar := by injection e2
  cases k <;> cases k2 <;> first | rfl | exact absurd hch (by decide)

/-- C1: for every failure at config-directory resolution, at file read, or
at JSON parse, `load` returns exactly the default record
800 x 1200 at position (-1, -1) (and, being a total function, never
propagates an error); when all three steps succeed it returns the parsed
record. -/
theorem load_total_fallback (env : LoadEnv) :
    (∀ e, env.configDir = .error e →
      SimpleWindowState.load env = ⟨800, 1200, -1, -1⟩) ∧
    (∀ dir e, env.configDir = .ok dir →
      env.readFile (configPath dir) = .error e →
      SimpleWindowState.load env = ⟨800, 1200, -1, -1⟩) ∧
    (∀ dir c, env.configDir = .ok dir →
      env.readFile (configPath dir) = .ok c → fromStr c = none →
      SimpleWindowState.load env = ⟨800, 1200, -1, -1⟩) ∧
    (∀ dir c st, env.configDir = .ok dir →
      env.readFile (configPath dir) = .ok c → fromStr c = some st →
      SimpleWindowState.load env = st) := by
  refine ⟨?_, ?_, ?_, ?_⟩ <;> intros <;>
    simp_all [SimpleWindowState.load, SimpleWindowState.default]

/-- Witness for C1: with config-directory resolution failing, `load`
returns the default record. -/
theorem load_total_fallback_witness :
    SimpleWindowState.load ⟨.error "no config dir", fun _ => .error "unused"⟩
      = ⟨800, 1200, -1, -1⟩ :=
  (load_total_fallback ⟨.error "no config dir", fun _ => .error "unused"⟩).1
    "no config dir" rfl

/-- C2: for every record within the struct field ranges with positive
width and height, a successful `save` followed by `load` over the
resulting filesystem returns the saved record. -/
theorem save_load_roundtrip (r : SimpleWindowState) (env : SaveEnv)
    (fs : FS) (dir : FsPath)
    (hw0 : 0 < r.width) (hh0 : 0 < r.height)
    (hw : isU32 r.width) (hh : isU32 r.height)
    (hx : isI32 r.x) (hy : isI32 r.y)
    (hd : env.configDir = .ok dir)
    (h1 : env.createDirFault = none) (h2 : env.serializeFault = none)
    (h3 : env.writeFault = none) :
    (r.save env fs).1 = .ok () ∧
    SimpleWindowState.load (loadEnvOf (.ok dir) (r.save env fs).2) = r := by
  have hsave : r.save env fs
      = (.ok (), fs.setFile (configPath dir) (toStringPretty r)) := by
    simp [SimpleWindowState.save, hd, h1, h2, h3]
  rw [hsave]
  refine ⟨rfl, ?_⟩
  simp [SimpleWindowState.load, loadEnvOf, FS.readFile, FS.setFile,
        fromStr_toStringPretty r hw hh hx hy]

/-- Witness for C2: saving a concrete record and loading it back returns
the record. -/
theorem save_load_roundtrip_witness :
    ((⟨640, 480, 10, 20⟩ : SimpleWindowState).save
        ⟨.ok ["cfg"], none, none, none⟩ fsEmpty).1 = .ok () ∧
    SimpleWindowState.load (loadEnvOf (.ok ["cfg"])
        ((⟨640, 480, 10, 20⟩ : SimpleWindowState).save
          ⟨.ok ["cfg"], none, none, none⟩ fsEmpty).2)
      = ⟨640, 480, 10, 20⟩ :=
  save_load_roundtrip ⟨640, 480, 10, 20⟩ ⟨.ok ["cfg"], none, none, none⟩
    fsEmpty ["cfg"] (by decide) (by decide) (by decide) (by decide)
    (by decide) (by decide) rfl rfl rfl rfl

/-- C3 is violated by the code: when the inner-size read succeeds but the
inner-position read fails, the close handler calls `unwrap()` on the
failed position result and panics. This theorem evaluates the handler at
such an input and shows the panic. -/
theorem close_handler_panics_on_position_error :
    (on_window_event .closeRequested
        ⟨.ok (800, 600), .error "inner_position unavailable",
          ⟨.ok ["cfg"], none, none, none⟩⟩ fsEmpty).1
      = .panicked "inner_position unavailable" := rfl

/-- C4: with a loaded record whose position is set (`x >= 0 && y >= 0`),
the startup code attempts `set_position(x, y)` and calls `center` exactly
once on its failure and never on its success; with `x < 0 || y < 0` it
centers directly and never calls `set_position`. -/
theorem setup_position_contract (st : SimpleWindowState) (env : SetupEnv) :
    ((0 ≤ st.x ∧ 0 ≤ st.y) →
      (env.setPositionResult = .ok () →
        setupCalls st env
          = [.setSize st.width st.height, .setPosition st.x st.y]) ∧
      (∀ e, env.setPositionResult = .error e →
        setupCalls st env
          = [.setSize st.width st.height, .setPosition st.x st.y, .center])) ∧
    ((st.x < 0 ∨ st.y < 0) →
      setupCalls st env = [.setSize st.width st.height, .center]) := by
  constructor
  · intro hpos
    constructor
    · intro hok
      simp [setupCalls, hpos, hok]
    · intro e herr
      simp [setupCalls, hpos, herr]
  · intro hneg
    have hcond : ¬(0 ≤ st.x ∧ 0 ≤ st.y) := by
      intro hc
      rcases hneg with hn | hn <;> omega
    simp [setupCalls, hcond]

/-- Witness for C4: at position (100, 50) with a failing `set_position`,
the trace is size, position attempt, then exactly one `center`. -/
theorem setup_position_contract_witness :
    setupCalls ⟨800, 1200, 100, 50⟩ ⟨.ok (), .error "set_position failed", .ok ()⟩
      = [.setSize 800 1200, .setPosition 100 50, .center] :=
  ((setup_position_contract ⟨800, 1200, 100, 50⟩
      ⟨.ok (), .error "set_position failed", .ok ()⟩).1
    (by decide)).2 "set_position failed" rfl

/-- C5: when the inner-size read fails on close, the handler completes
without calling `save` and the filesystem is left exactly as it was. -/
theorem close_skips_save_on_size_error (env : CloseEnv) (fs : FS) (e : String)
    (h : env.innerSize = .error e) :
    on_window_event .closeRequested env fs = (.completed none, fs) := by
  simp [on_window_event, h]

/-- Witness for C5: a concrete close event with a failing size read leaves
the empty filesystem unchanged and performs no save. -/
theorem close_skips_save_on_size_error_witness :
    on_window_event .closeRequested
        ⟨.error "size unavailable", .ok (0, 0), ⟨.ok ["cfg"], none, none, none⟩⟩
        fsEmpty
      = (.completed none, fsEmpty) :=
  close_skips_save_on_size_error
    ⟨.error "size unavailable", .ok (0, 0), ⟨.ok ["cfg"], none, none, none⟩⟩
    fsEmpty "size unavailable" rfl

/-- C6: the four stages of `save` run in order; each failure (with all
earlier stages succeeding) yields the error message of its own distinct
kind and leaves the filesystem untouched (so no later stage runs); when
all stages succeed the file is written; and no message carries two kinds. -/
theorem save_stage_error_kinds (st : SimpleWindowState) (env : SaveEnv)
    (fs : FS) :
    (∀ e, env.configDir = .error e →
      st.save env fs
        = (.error (SaveErrorKind.ConfigDirUnavailable.tag ++ e), fs)) ∧
    (∀ dir e, env.configDir = .ok dir → env.createDirFault = some e →
      st.save env fs
        = (.error (SaveErrorKind.DirectoryCreateFailed.tag ++ e), fs)) ∧
    (∀ dir e, env.configDir = .ok dir → env.createDirFault = none →
      env.serializeFault = some e →
      st.save env fs
        = (.error (SaveErrorKind.SerializationFailed.tag ++ e), fs)) ∧
    (∀ dir e, env.configDir = .ok dir → env.createDirFault = none →
      env.serializeFault = none → env.writeFault = some e →
      st.save env fs
        = (.error (SaveErrorKind.FileWriteFailed.tag ++ e), fs)) ∧
    (∀ dir, env.configDir = .ok dir → env.createDirFault = none →
      env.serializeFault = none → env.writeFault = none →
      st.save env fs
        = (.ok (), fs.setFile (configPath dir) (toStringPretty st))) ∧
    (∀ k k2 msg, hasKind k msg → hasKind k2 msg → k = k2) := by
  refine ⟨?_, ?_, ?_, ?_, ?_, hasKind_unique⟩ <;> intros <;>
    simp_all [SimpleWindowState.save, SaveErrorKind.tag]

/-- Witness for C6: with only `fs::create_dir_all` failing, `save` returns
the directory-creation error and does not touch the filesystem. -/
theorem save_stage_error_kinds_witness :
    SimpleWindowState.default.save
        ⟨.ok ["cfg"], some "permission denied", none, none⟩ fsEmpty
      = (.error (SaveErrorKind.DirectoryCreateFailed.tag ++ "permission denied"),
         fsEmpty) :=
  (save_stage_error_kinds SimpleWindowState.default
      ⟨.ok ["cfg"], some "permission denied", none, none⟩ fsEmpty).2.1
    ["cfg"] "permission denied" rfl rfl

/-- C7: whenever `save` returns an error, the filesystem — in particular
any previously persisted geometry file — is exactly as it was before the
call; no partial or corrupt file results. -/
theorem save_error_leaves_fs_unchanged (st : SimpleWindowState)
    (env : SaveEnv) (fs : FS) (e : String)
    (h : (st.save env fs).1 = .error e) :
    (st.save env fs).2 = fs := by
  rcases env with ⟨cd, cf, sf, wf⟩
  cases cd <;> cases cf <;> cases sf <;> cases wf <;>
    simp_all [SimpleWindowState.save]

/-- Witness for C7: a failing write leaves the filesystem unchanged. -/
theorem save_error_leaves_fs_unchanged_witness :
    (SimpleWindowState.default.save
        ⟨.ok ["cfg"], none, none, some "disk full"⟩ fsEmpty).2 = fsEmpty :=
  save_error_leaves_fs_unchanged SimpleWindowState.default
    ⟨.ok ["cfg"], none, none, some "disk full"⟩ fsEmpty
    ("写入配置文件失败: " ++ "disk full") rfl

/-- C8: every loaded record — zero and negative field values included —
is handed to the window calls unchanged: the first call is always
`set_size` with exactly the loaded width and height (no `width > 0` or
`height > 0` validation in this layer), and any `set_position` call made
carries exactly the loaded `(x, y)`. -/
theorem loaded_geometry_passthrough (le : LoadEnv) (env : SetupEnv)
    (st : SimpleWindowState) (h : SimpleWindowState.load le = st) :
    (setup le env).head? = some (.setSize st.width st.height) ∧
    (positionsOf (setup le env) = [] ∨
      positionsOf (setup le env) = [(st.x, st.y)]) := by
  subst h
  refine ⟨rfl, ?_⟩
  show positionsOf (setupCalls (SimpleWindowState.load le) env) = _ ∨
       positionsOf (setupCalls (SimpleWindowState.load le) env) = _
  by_cases hc : 0 ≤ (SimpleWindowState.load le).x ∧
      0 ≤ (SimpleWindowState.load le).y
  · cases hp : env.setPositionResult with
    | ok u =>
      right
      simp only [setupCalls, if_pos hc, hp]
      rfl
    | error e =>
      right
      simp only [setupCalls, if_pos hc, hp]
      rfl
  · left
    simp only [setupCalls, if_neg hc]
    rfl

/-- Witness for C8: a loaded record with zero width and a negative x is
passed to `set_size` as-is, and no `set_position` call carries anything
but the loaded coordinates. -/
theorem loaded_geometry_passthrough_witness :
    (setup ⟨.ok ["cfg"], fun _ => .ok (toStringPretty ⟨0, 5, -3, 7⟩)⟩
        ⟨.ok (), .ok (), .ok ()⟩).head?
      = some (.setSize 0 5) ∧
    (positionsOf (setup ⟨.ok ["cfg"], fun _ => .ok (toStringPretty ⟨0, 5, -3, 7⟩)⟩
        ⟨.ok (), .ok (), .ok ()⟩) = [] ∨
     positionsOf (setup ⟨.ok ["cfg"], fun _ => .ok (toStringPretty ⟨0, 5, -3, 7⟩)⟩
        ⟨.ok (), .ok (), .ok ()⟩) = [(-3, 7)]) :=
  loaded_geometry_passthrough
    ⟨.ok ["cfg"], fun _ => .ok (toStringPretty ⟨0, 5, -3, 7⟩)⟩
    ⟨.ok (), .ok (), .ok ()⟩ ⟨0, 5, -3, 7⟩ rfl

/-- C9: two successful `save` calls in sequence leave the geometry file
holding exactly the serialized form of the second record. -/
theorem save_overwrite_last_wins (r1 r2 : SimpleWindowState) (env : SaveEnv)
    (fs : FS) (dir : FsPath)
    (hd : env.configDir = .ok dir) (h1 : env.createDirFault = none)
    (h2 : env.serializeFault = none) (h3 : env.writeFault = none) :
    (r1.save env fs).1 = .ok () ∧
    (r2.save env (r1.save env fs).2).1 = .ok () ∧
    FS.getFile (r2.save env (r1.save env fs).2).2 (configPath dir)
      = some (toStringPretty r2) := by
  have e1 : r1.save env fs
      = (.ok (), fs.setFile (configPath dir) (toStringPretty r1)) := by
    simp [SimpleWindowState.save, hd, h1, h2, h3]
  have e2 : ∀ g : FS, r2.save env g
      = (.ok (), g.setFile (configPath dir) (toStringPretty r2)) := by
    intro g
    simp [SimpleWindowState.save, hd, h1, h2, h3]
  rw [e1, e2]
  refine ⟨rfl, rfl, ?_⟩
  simp [FS.setFile, FS.getFile]

/-- Witness for C9: saving two concrete records leaves the second one's
serialized form in the file. -/
theorem save_overwrite_last_wins_witness :
    ((⟨800, 1200, -1, -1⟩ : SimpleWindowState).save
        ⟨.ok ["cfg"], none, none, none⟩ fsEmpty).1 = .ok () ∧
    ((⟨1024, 768, 10, 20⟩ : SimpleWindowState).save ⟨.ok ["cfg"], none, none, none⟩
        ((⟨800, 1200, -1, -1⟩ : SimpleWindowState).save
          ⟨.ok ["cfg"], none, none, none⟩ fsEmpty).2).1 = .ok () ∧
    FS.getFile ((⟨1024, 768, 10, 20⟩ : SimpleWindowState).save
        ⟨.ok ["cfg"], none, none, none⟩
        ((⟨800, 1200, -1, -1⟩ : SimpleWindowState).save
          ⟨.ok ["cfg"], none, none, none⟩ fsEmpty).2).2 (configPath ["cfg"])
      = some (toStringPretty ⟨1024, 768, 10, 20⟩) :=
  save_overwrite_last_wins ⟨800, 1200, -1, -1⟩ ⟨1024, 768, 10, 20⟩
    ⟨.ok ["cfg"], none, none, none⟩ fsEmpty ["cfg"] rfl rfl rfl rfl

/-- C10: a close event at a position with a negative coordinate saves the
coordinates verbatim to disk, and a following startup that loads them
treats them as the position-unset sentinel: it centers and never calls
`set_position`. -/
theorem negative_position_saved_then_centered
    (w h px py : Int) (cenv : CloseEnv) (fs : FS) (dir : FsPath)
    (senv : SetupEnv)
    (hw : isU32 w) (hh : isU32 h) (hpx : isI32 px) (hpy : isI32 py)
    (hneg : px < 0 ∨ py < 0)
    (hs : cenv.innerSize = .ok (w, h))
    (hp : cenv.innerPosition = .ok (px, py))
    (hd : cenv.saveEnv.configDir = .ok dir)
    (h1 : cenv.saveEnv.createDirFault = none)
    (h2 : cenv.saveEnv.serializeFault = none)
    (h3 : cenv.saveEnv.writeFault = none) :
    (on_window_event .closeRequested cenv fs).1 = .completed (some (.ok ())) ∧
    FS.getFile (on_window_event .closeRequested cenv fs).2 (configPath dir)
      = some (toStringPretty ⟨w, h, px, py⟩) ∧
    setup (loadEnvOf (.ok dir) (on_window_event .closeRequested cenv fs).2) senv
      = [.setSize w h, .center] := by
  have hev : on_window_event .closeRequested cenv fs
      = (.completed (some (.ok ())),
         fs.setFile (configPath dir) (toStringPretty ⟨w, h, px, py⟩)) := by
    simp [on_window_event, hs, hp, SimpleWindowState.save, hd, h1, h2, h3]
  rw [hev]
  refine ⟨rfl, ?_, ?_⟩
  · simp [FS.setFile, FS.getFile]
  · have hload : SimpleWindowState.load
        (loadEnvOf (.ok dir)
          (fs.setFile (configPath dir) (toStringPretty ⟨w, h, px, py⟩)))
        = ⟨w, h, px, py⟩ := by
      simp [SimpleWindowState.load, loadEnvOf, FS.readFile, FS.setFile,
            fromStr_toStringPretty ⟨w, h, px, py⟩ hw hh hpx hpy]
    have hcond : ¬(0 ≤ (⟨w, h, px, py⟩ : SimpleWindowState).x ∧
        0 ≤ (⟨w, h, px, py⟩ : SimpleWindowState).y) := by
      intro hcc
      simp only at hcc
      rcases hneg with hn | hn <;> omega
    simp only [setup, hload, setupCalls, if_neg hcond]

/-- Witness for C10: closing at (-100, 50) writes the record verbatim and
the following startup centers the window. -/
theorem negative_position_saved_then_centered_witness :
    (on_window_event .closeRequested
        ⟨.ok (1024, 768), .ok (-100, 50), ⟨.ok ["cfg"], none, none, none⟩⟩
        fsEmpty).1 = .completed (some (.ok ())) ∧
    FS.getFile (on_window_event .closeRequested
        ⟨.ok (1024, 768), .ok (-100, 50), ⟨.ok ["cfg"], none, none, none⟩⟩
        fsEmpty).2 (configPath ["cfg"])
      = some (toStringPretty ⟨1024, 768, -100, 50⟩) ∧
    setup (loadEnvOf (.ok ["cfg"])
        (on_window_event .closeRequested
          ⟨.ok (1024, 768), .ok (-100, 50), ⟨.ok ["cfg"], none, none, none⟩⟩
          fsEmpty).2) ⟨.ok (), .ok (), .ok ()⟩
      = [.setSize 1024 768, .center] :=
  negative_position_saved_then_centered 1024 768 (-100) 50
    ⟨.ok (1024, 768), .ok (-100, 50), ⟨.ok ["cfg"], none, none, none⟩⟩
    fsEmpty ["cfg"] ⟨.ok (), .ok (), .ok ()⟩
    (by decide) (by decide) (by decide) (by decide) (by decide)
    rfl rfl rfl rfl rfl rfl
